import Mathlib

/-!
Verification development for the ZMPY notebooks (3D Zernike moment pipeline).

The two notebooks orchestrate the ZMPY3D library: they build unit and
sphere-rescaled sample lattices, run a first (mass / center-of-mass) moment
pass at order 1, a second sphere-sampled pass at MaxOrder, convert the
geometric moment tensor to scaled 3D Zernike moments, reduce those to the
rotation-invariant 3DZD descriptor, and filter the NaN sentinels out of the
descriptor vector.  The notebook-level orchestration (lattice construction,
call wiring, the NaN filter) is embedded from the notebook source; the
library operations the notebooks call (`calculate_bbox_moment`,
`calculate_molecular_radius`, `get_bbox_moment_xyz_sample`,
`calculate_bbox_moment_2_zm`, `get_3dzd_121_descriptor`, the shape
comparator) are not part of this repository's source tree and are modelled
from the specification, as marked in their doc comments.

Floating-point doubles are modelled as exact real numbers; the NaN sentinel
marking a structurally absent entry is modelled as `Option.none`.
-/

noncomputable section

/-- A dense three-dimensional voxel grid of real density values
(`Voxel3D` in the notebooks), with axis lengths `nx`, `ny`, `nz`. -/
structure VoxelGrid where
  nx : ℕ
  ny : ℕ
  nz : ℕ
  density : ℕ → ℕ → ℕ → ℝ

/-- Three one-dimensional ordered sequences of sample coordinates along
X, Y, Z: the quadrature nodes for moment integration. -/
structure SampleLattice where
  xs : List ℝ
  ys : List ℝ
  zs : List ℝ

/-- Geometric moment tensor: entries indexed by exponent triples `(p,q,r)`;
`none` models an index triple that is not populated. -/
def MomentTensor : Type := ℕ → ℕ → ℕ → Option ℝ

/-- Degenerate-input failure raised on a zero-total-mass voxel grid. -/
inductive DegenerateInputError where
  | zeroMass
  deriving DecidableEq

/-- Immutable coefficient cache bundle loaded per MaxOrder.  The notebooks
load five tables: `GCache_pqr_linear` (linearization of `(p,q,r)` triples to
flat indices), `GCache_complex` (complex combination coefficients),
`GCache_complex_index` (reverse mapping from flat indices to `(n,l,m)`),
`CLMCache3D` (per-`(n,l,m)` normalization constants) and `CLMCache`
(a further normalization table).  The tables' internal construction is
opaque to this development, so they are kept as abstract functions. -/
structure CacheBundle where
  GCache_pqr_linear : ℕ → ℕ → ℕ → ℕ
  GCache_complex : ℕ → ℂ
  GCache_complex_index : ℕ → ℕ × ℕ × ℤ
  CLMCache3D : ℕ → ℕ → ℤ → ℂ
  CLMCache : List ℝ

/-- The triangular invariant on an `(n,l)` pair under a maximum order:
`n ≤ MaxOrder`, `0 ≤ l ≤ n` and `n - l` even. -/
def validNL (maxOrder n l : ℕ) : Prop :=
  n ≤ maxOrder ∧ l ≤ n ∧ (n - l) % 2 = 0

instance (maxOrder n l : ℕ) : Decidable (validNL maxOrder n l) :=
  inferInstanceAs (Decidable (n ≤ maxOrder ∧ l ≤ n ∧ (n - l) % 2 = 0))

/-- The triangular invariant on an `(n,l,m)` triple: `(n,l)` valid and
`|m| ≤ l`. -/
def validNLM (maxOrder n l : ℕ) (m : ℤ) : Prop :=
  validNL maxOrder n l ∧ m.natAbs ≤ l

instance (maxOrder n l : ℕ) (m : ℤ) : Decidable (validNLM maxOrder n l m) :=
  inferInstanceAs (Decidable (validNL maxOrder n l ∧ m.natAbs ≤ l))

/-- Unit sample lattice along one axis, from the notebook source
(`tf.range(Dimension_BBox_scaled[i] + 1)` / `np.arange(dim + 1)`):
the consecutive integers `0, 1, ..., n` for an axis of length `n`. -/
def unitSample (n : ℕ) : List ℝ :=
  (List.range (n + 1)).map (fun i : ℕ => (i : ℝ))

/-- The unit sample lattice of a voxel grid, as built by the notebooks
(`X_sample`, `Y_sample`, `Z_sample` / `XYZ_SampleStruct`). -/
def unitLatticeOf (g : VoxelGrid) : SampleLattice :=
  ⟨unitSample g.nx, unitSample g.ny, unitSample g.nz⟩

/-- Total mass of a voxel grid: the sum of all densities. -/
def massOf (g : VoxelGrid) : ℝ :=
  ∑ i ∈ Finset.range g.nx, ∑ j ∈ Finset.range g.ny, ∑ k ∈ Finset.range g.nz,
    g.density i j k

/-- Modelled from the spec: the geometric moment integral of
`calculate_bbox_moment` (library code not in this repository's source).
It integrates the grid against the tensor-product polynomial basis
`x^p * y^q * z^r` evaluated at the lattice nodes, weighted by density. -/
def geoMoment (g : VoxelGrid) (lat : SampleLattice) (p q r : ℕ) : ℝ :=
  ∑ i ∈ Finset.range g.nx, ∑ j ∈ Finset.range g.ny, ∑ k ∈ Finset.range g.nz,
    g.density i j k * (lat.xs.getD i 0) ^ p * (lat.ys.getD j 0) ^ q *
      (lat.zs.getD k 0) ^ r

/-- Modelled from the spec: the center of mass returned by
`calculate_bbox_moment`, the ratios of the three first-order moments to the
`(0,0,0)` moment. -/
def bboxCenter (g : VoxelGrid) (lat : SampleLattice) : ℝ × ℝ × ℝ :=
  (geoMoment g lat 1 0 0 / geoMoment g lat 0 0 0,
   geoMoment g lat 0 1 0 / geoMoment g lat 0 0 0,
   geoMoment g lat 0 0 1 / geoMoment g lat 0 0 0)

/-- Modelled from the spec: the moment tensor returned by
`calculate_bbox_moment`, populated exactly on the triples with
`p + q + r ≤ order`. -/
def bboxTensor (g : VoxelGrid) (lat : SampleLattice) (order : ℕ) : MomentTensor :=
  fun p q r =>
    if p + q + r ≤ order then some (geoMoment g lat p q r) else none

/-- Modelled from the spec: `calculate_bbox_moment` (library code not in
this repository's source).  Returns the total mass (the `(0,0,0)` moment),
the center of mass and the moment tensor up to `order`; fails with
`DegenerateInputError` on zero total mass. -/
def calculate_bbox_moment (g : VoxelGrid) (order : ℕ) (lat : SampleLattice) :
    Except DegenerateInputError (ℝ × (ℝ × ℝ × ℝ) × MomentTensor) :=
  if geoMoment g lat 0 0 0 = 0 then .error .zeroMass
  else .ok (geoMoment g lat 0 0 0, bboxCenter g lat, bboxTensor g lat order)

/-- Euclidean distance of voxel index `(i,j,k)` from a center point. -/
def voxelDist (c : ℝ × ℝ × ℝ) (i j k : ℕ) : ℝ :=
  Real.sqrt (((i : ℝ) - c.1) ^ 2 + ((j : ℝ) - c.2.1) ^ 2 + ((k : ℝ) - c.2.2) ^ 2)

/-- Modelled from the spec: `calculate_molecular_radius` (library code not
in this repository's source).  Returns the density-weighted average
distance from the center scaled by the radius multiplier, and the maximum
distance over occupied voxels. -/
def calculate_molecular_radius (g : VoxelGrid) (c : ℝ × ℝ × ℝ) (mass : ℝ)
    (mult : ℝ) : ℝ × ℝ :=
  (mult * (∑ i ∈ Finset.range g.nx, ∑ j ∈ Finset.range g.ny,
      ∑ k ∈ Finset.range g.nz, g.density i j k * voxelDist c i j k) / mass,
   ((List.range g.nx).flatMap (fun i => (List.range g.ny).flatMap (fun j =>
      (List.range g.nz).map (fun k =>
        if g.density i j k ≠ 0 then voxelDist c i j k else 0)))).foldr max 0)

/-- Modelled from the spec: `get_bbox_moment_xyz_sample` (library code not
in this repository's source).  The sphere-rescaled lattice, centered on the
center of mass with spacing derived from the average radius. -/
def get_bbox_moment_xyz_sample (c : ℝ × ℝ × ℝ) (avgDist : ℝ)
    (dims : ℕ × ℕ × ℕ) : SampleLattice :=
  ⟨(List.range (dims.1 + 1)).map (fun i : ℕ => ((i : ℝ) - c.1) / avgDist),
   (List.range (dims.2.1 + 1)).map (fun j : ℕ => ((j : ℝ) - c.2.1) / avgDist),
   (List.range (dims.2.2 + 1)).map (fun k : ℕ => ((k : ℝ) - c.2.2) / avgDist)⟩

/-- Modelled from the spec: the weight the cache tables assign to geometric
moment `(p,q,r)` in the Zernike moment `(n,l,m)`: the flat index of
`(p,q,r)` contributes its complex coefficient, normalized by `CLMCache3D`,
to the `(n,l,m)` slot its reverse index names. -/
def zmWeight (c : CacheBundle) (n l : ℕ) (m : ℤ) (p q r : ℕ) : ℂ :=
  if c.GCache_complex_index (c.GCache_pqr_linear p q r) = (n, l, m) then
    c.CLMCache3D n l m * c.GCache_complex (c.GCache_pqr_linear p q r)
  else 0

/-- Modelled from the spec: the complex linear combination of geometric
moments giving the Zernike moment value at `(n,l,m)`. -/
def zmRaw (maxOrder : ℕ) (c : CacheBundle) (T : MomentTensor) (n l : ℕ)
    (m : ℤ) : ℂ :=
  ∑ p ∈ Finset.range (maxOrder + 1), ∑ q ∈ Finset.range (maxOrder + 1),
    ∑ r ∈ Finset.range (maxOrder + 1),
      if p + q + r ≤ maxOrder then
        zmWeight c n l m p q r * (((T p q r).getD 0 : ℝ) : ℂ)
      else 0

/-- Modelled from the spec: `calculate_bbox_moment_2_zm` (library code not
in this repository's source).  A fixed linear map per order from the
geometric moment tensor to complex `(n,l,m)` Zernike moments; triples
violating the triangular invariant are NaN sentinels, modelled as `none`.
It returns the pair (scaled moments, raw moments); the radius normalization
distinguishing the scaled variant is carried by the sphere-rescaled sample
lattice in this model, so the two components coincide here. -/
def calculate_bbox_moment_2_zm (maxOrder : ℕ) (c : CacheBundle)
    (T : MomentTensor) :
    (ℕ → ℕ → ℤ → Option ℂ) × (ℕ → ℕ → ℤ → Option ℂ) :=
  (fun n l m =>
      if validNLM maxOrder n l m then some (zmRaw maxOrder c T n l m) else none,
   fun n l m =>
      if validNLM maxOrder n l m then some (zmRaw maxOrder c T n l m) else none)

/-- Modelled from the spec: the `(n,l)` entry of `get_3dzd_121_descriptor`:
the square root of the sum of squared magnitudes over the populated
(non-NaN) `(n,l,m)` entries among the `2l+1` values of `m`; NaN
(here `none`) when no entry is populated. -/
def descEntry (Z : ℕ → ℕ → ℤ → Option ℂ) (n l : ℕ) : Option ℝ :=
  let P := (Finset.Icc (-(l : ℤ)) (l : ℤ)).filter (fun m => (Z n l m).isSome)
  if P.Nonempty then
    some (Real.sqrt (∑ m ∈ P, (Complex.abs ((Z n l m).getD 0)) ^ 2))
  else none

/-- Modelled from the spec: `get_3dzd_121_descriptor` (library code not in
this repository's source).  The 3DZD rotation-invariant descriptor: one
entry per `(n,l)` pair of the `(MaxOrder+1) x (MaxOrder+1)` index square in
row-major order, NaN (`none`) at pairs violating the triangular
invariant. -/
def get_3dzd_121_descriptor (maxOrder : ℕ) (Z : ℕ → ℕ → ℤ → Option ℂ) :
    List (Option ℝ) :=
  (List.range (maxOrder + 1)).flatMap (fun n =>
    (List.range (maxOrder + 1)).map (fun l => descEntry Z n l))

/-- The NumPy pipeline `OneTimeConversion` from the time-evaluation
notebook: unit lattice, order-1 pass for mass and center, molecular radius,
sphere-rescaled lattice, MaxOrder pass, Zernike transform, 3DZD descriptor,
NaN filter (`ZM_3DZD_invariant[~np.isnan(ZM_3DZD_invariant)]`, modelled as
`List.reduceOption`). -/
def OneTimeConversion (c : CacheBundle) (mult : ℝ) (Voxel3D : VoxelGrid)
    (MaxOrder : ℕ) : Except DegenerateInputError (List ℝ) :=
  match calculate_bbox_moment Voxel3D 1 (unitLatticeOf Voxel3D) with
  | .error e => .error e
  | .ok r1 =>
      let volumeMass := r1.1
      let center := r1.2.1
      let avgDist := (calculate_molecular_radius Voxel3D center volumeMass mult).1
      let sphereLat := get_bbox_moment_xyz_sample center avgDist
        (Voxel3D.nx, Voxel3D.ny, Voxel3D.nz)
      match calculate_bbox_moment Voxel3D MaxOrder sphereLat with
      | .error e => .error e
      | .ok r2 =>
          .ok ((get_3dzd_121_descriptor MaxOrder
            ((calculate_bbox_moment_2_zm MaxOrder c r2.2.2).1)).reduceOption)

/-- The CuPy pipeline `OneTimeConversion_CP` from the time-evaluation
notebook: the same call sequence as the NumPy variant, with the NaN filter
written as `ZM_3DZD_invariant[~cp.isnan(ZM_3DZD_invariant)]`. -/
def OneTimeConversion_CP (c : CacheBundle) (mult : ℝ) (Voxel3D : VoxelGrid)
    (MaxOrder : ℕ) : Except DegenerateInputError (List ℝ) :=
  match calculate_bbox_moment Voxel3D 1 (unitLatticeOf Voxel3D) with
  | .error e => .error e
  | .ok r1 =>
      let volumeMass := r1.1
      let center := r1.2.1
      let avgDist := (calculate_molecular_radius Voxel3D center volumeMass mult).1
      let sphereLat := get_bbox_moment_xyz_sample center avgDist
        (Voxel3D.nx, Voxel3D.ny, Voxel3D.nz)
      match calculate_bbox_moment Voxel3D MaxOrder sphereLat with
      | .error e => .error e
      | .ok r2 =>
          .ok ((get_3dzd_121_descriptor MaxOrder
            ((calculate_bbox_moment_2_zm MaxOrder c r2.2.2).1)).reduceOption)

/-- The TensorFlow pipeline `OneTimeConversion_TF` from both notebooks: the
same call sequence, with the NaN filter written as
`tf.reshape(tf.boolean_mask(v, ~tf.math.is_nan(v)), [-1])`. -/
def OneTimeConversion_TF (c : CacheBundle) (mult : ℝ) (Voxel3D : VoxelGrid)
    (MaxOrder : ℕ) : Except DegenerateInputError (List ℝ) :=
  match calculate_bbox_moment Voxel3D 1 (unitLatticeOf Voxel3D) with
  | .error e => .error e
  | .ok r1 =>
      let volumeMass := r1.1
      let center := r1.2.1
      let avgDist := (calculate_molecular_radius Voxel3D center volumeMass mult).1
      let sphereLat := get_bbox_moment_xyz_sample center avgDist
        (Voxel3D.nx, Voxel3D.ny, Voxel3D.nz)
      match calculate_bbox_moment Voxel3D MaxOrder sphereLat with
      | .error e => .error e
      | .ok r2 =>
          .ok ((get_3dzd_121_descriptor MaxOrder
            ((calculate_bbox_moment_2_zm MaxOrder c r2.2.2).1)).reduceOption)

/-- The center of mass the pipeline computes in its first pass. -/
def pipelineCenter (g : VoxelGrid) : ℝ × ℝ × ℝ :=
  bboxCenter g (unitLatticeOf g)

/-- The sphere-rescaled lattice the pipeline builds from the first pass. -/
def pipelineSphereLat (mult : ℝ) (g : VoxelGrid) : SampleLattice :=
  get_bbox_moment_xyz_sample (pipelineCenter g)
    ((calculate_molecular_radius g (pipelineCenter g) (massOf g) mult).1)
    (g.nx, g.ny, g.nz)

/-- The scaled Zernike moments the pipeline feeds to the descriptor. -/
def pipelineZscaled (c : CacheBundle) (mult : ℝ) (g : VoxelGrid)
    (maxOrder : ℕ) : ℕ → ℕ → ℤ → Option ℂ :=
  (calculate_bbox_moment_2_zm maxOrder c
    (bboxTensor g (pipelineSphereLat mult g) maxOrder)).1

/-- The unfiltered 3DZD descriptor computed by the pipeline. -/
def pipelineDescriptor (c : CacheBundle) (mult : ℝ) (g : VoxelGrid)
    (maxOrder : ℕ) : List (Option ℝ) :=
  get_3dzd_121_descriptor maxOrder (pipelineZscaled c mult g maxOrder)

/-- The Zernike similarity score from the shape-score notebook cell
`ZMScore = cp.sum(cp.abs(MomentInvariantRawA[ZMIndex] -
MomentInvariantRawB[ZMIndex]) * ZMWeight)`: the stacked predefined
`ZMIndex` / `ZMWeight` tables are embedded as functions with `K`
entries. -/
def ZMScore (ZMWeight : ℕ → ℝ) (ZMIndex : ℕ → ℕ) (K : ℕ)
    (A B : ℕ → ℝ) : ℝ :=
  ∑ i ∈ Finset.range K, |A (ZMIndex i) - B (ZMIndex i)| * ZMWeight i

/-- The geometric similarity score from the shape-score notebook cell
`GeoScore = cp.sum(cp.asarray(P['GeoWeight']) * (2 *
cp.abs(GeoDescriptorA - GeoDescriptorB) / (1 + cp.abs(GeoDescriptorA) +
cp.abs(GeoDescriptorB))))`, with the `GeoWeight` table embedded as a
function with `K` entries. -/
def GeoScore (GeoWeight : ℕ → ℝ) (K : ℕ) (gA gB : ℕ → ℝ) : ℝ :=
  ∑ i ∈ Finset.range K, GeoWeight i * (2 * |gA i - gB i| / (1 + |gA i| + |gB i|))

/-- The rescaled geometric score from the shape-score notebook:
`GeoScoreScaled = (6.6 - GeoScore) / 6.6 * 100.0`. -/
def GeoScoreScaled (GeoWeight : ℕ → ℝ) (K : ℕ) (gA gB : ℕ → ℝ) : ℝ :=
  (6.6 - GeoScore GeoWeight K gA gB) / 6.6 * 100.0

/-- The rescaled Zernike score from the shape-score notebook:
`ZMScoreScaled = (9.0 - ZMScore) / 9.0 * 100.0`. -/
def ZMScoreScaled (ZMWeight : ℕ → ℝ) (ZMIndex : ℕ → ℕ) (K : ℕ)
    (A B : ℕ → ℝ) : ℝ :=
  (9.0 - ZMScore ZMWeight ZMIndex K A B) / 9.0 * 100.0

/-- The comparator of the shape-score notebook as one operation: given the
two structures' descriptor vectors `A`, `B` and geometric-statistics
vectors `gA`, `gB`, it returns the pair of rescaled scores
`(GeoScoreScaled, ZMScoreScaled)` the cell prints. -/
def score (ZMWeight : ℕ → ℝ) (ZMIndex : ℕ → ℕ) (Kz : ℕ)
    (GeoWeight : ℕ → ℝ) (Kg : ℕ) (A gA B gB : ℕ → ℝ) : ℝ × ℝ :=
  (GeoScoreScaled GeoWeight Kg gA gB, ZMScoreScaled ZMWeight ZMIndex Kz A B)

/-- Concrete fixture: a 3 x 4 x 5 grid of unit density. -/
def gExample : VoxelGrid := ⟨3, 4, 5, fun _ _ _ => 1⟩

/-- Concrete fixture: a 1 x 1 x 1 grid of unit density (total mass 1). -/
def gUnit : VoxelGrid := ⟨1, 1, 1, fun _ _ _ => 1⟩

/-- Concrete fixture: an all-zero 2 x 2 x 2 grid (total mass 0). -/
def gZero : VoxelGrid := ⟨2, 2, 2, fun _ _ _ => 0⟩

/-- Concrete fixture: a trivial cache bundle. -/
def cacheA : CacheBundle :=
  ⟨fun _ _ _ => 0, fun _ => 0, fun _ => (0, 0, 0), fun _ _ _ => 0, []⟩

/-- Concrete fixture: a cache bundle identical to `cacheA` except for the
`CLMCache` table. -/
def cacheB : CacheBundle :=
  ⟨fun _ _ _ => 0, fun _ => 0, fun _ => (0, 0, 0), fun _ _ _ => 0, [1]⟩

/-- Concrete fixture: an empty moment tensor. -/
def tensor0 : MomentTensor := fun _ _ _ => none

lemma geoMoment_zero_zero_zero (g : VoxelGrid) (lat : SampleLattice) :
    geoMoment g lat 0 0 0 = massOf g := by
  simp [geoMoment, massOf]

lemma reduceOption_length_countP {α : Type} (l : List (Option α)) :
    l.reduceOption.length = l.countP (fun o => o.isSome) := by
  induction l with
  | nil => simp
  | cons o t ih =>
    cases o with
    | none => simp [List.reduceOption_cons_of_none, ih, List.countP_cons]
    | some a => simp [List.reduceOption_cons_of_some, ih, List.countP_cons]

lemma countP_flatMap {α β : Type} (l : List α) (f : α → List β) (p : β → Bool) :
    (l.flatMap f).countP p = (l.map (fun a => (f a).countP p)).sum := by
  induction l with
  | nil => simp
  | cons a t ih => simp [List.countP_append, ih]

lemma map_some_reduceOption_sublist {α : Type} (l : List (Option α)) :
    (l.reduceOption.map some).Sublist l := by
  induction l with
  | nil => simp
  | cons o t ih =>
    cases o with
    | none =>
      rw [List.reduceOption_cons_of_none]
      exact ih.cons _
    | some a =>
      rw [List.reduceOption_cons_of_some, List.map_cons]
      exact ih.cons₂ _

lemma zero_mem_Icc_neg (l : ℕ) : (0 : ℤ) ∈ Finset.Icc (-(l : ℤ)) (l : ℤ) := by
  rw [Finset.mem_Icc]
  omega

lemma descEntry_isSome_iff (maxOrder : ℕ) (Z : ℕ → ℕ → ℤ → Option ℂ)
    (hZ : ∀ n l m, (Z n l m).isSome ↔ validNLM maxOrder n l m) (n l : ℕ) :
    (descEntry Z n l).isSome ↔ validNL maxOrder n l := by
  unfold descEntry
  by_cases hne :
      ((Finset.Icc (-(l : ℤ)) (l : ℤ)).filter (fun m => (Z n l m).isSome)).Nonempty
  · rw [if_pos hne]
    obtain ⟨m, hm⟩ := hne
    rw [Finset.mem_filter] at hm
    simpa using ((hZ n l m).1 hm.2).1
  · rw [if_neg hne]
    simp only [Option.isSome_none, Bool.false_eq_true, false_iff]
    intro h
    exact hne ⟨0, Finset.mem_filter.2
      ⟨zero_mem_Icc_neg l, (hZ n l 0).2 ⟨h, by simp⟩⟩⟩

lemma descEntry_isSome_eq (maxOrder : ℕ) (Z : ℕ → ℕ → ℤ → Option ℂ)
    (hZ : ∀ n l m, (Z n l m).isSome ↔ validNLM maxOrder n l m) (n l : ℕ) :
    (descEntry Z n l).isSome = decide (validNL maxOrder n l) := by
  by_cases h : validNL maxOrder n l
  · simp [h, (descEntry_isSome_iff maxOrder Z hZ n l).2 h]
  · simp only [h, decide_False]
    rw [← Bool.not_eq_true]
    intro hcon
    exact h ((descEntry_isSome_iff maxOrder Z hZ n l).1 hcon)

lemma descriptor_reduceOption_length (maxOrder : ℕ)
    (Z : ℕ → ℕ → ℤ → Option ℂ)
    (hZ : ∀ n l m, (Z n l m).isSome ↔ validNLM maxOrder n l m) :
    (get_3dzd_121_descriptor maxOrder Z).reduceOption.length
      = ((List.range (maxOrder + 1)).map (fun n =>
          (List.range (maxOrder + 1)).countP
            (fun l => decide (validNL maxOrder n l)))).sum := by
  rw [reduceOption_length_countP, get_3dzd_121_descriptor, countP_flatMap]
  congr 1
  apply List.map_congr_left
  intro n _
  rw [List.countP_map]
  apply List.countP_congr
  intro l _
  simpa using descEntry_isSome_iff maxOrder Z hZ n l

lemma valid_pair_count_20 :
    ((List.range 21).map (fun n =>
      (List.range 21).countP (fun l => decide (validNL 20 n l)))).sum = 121 := by
  decide

lemma pipelineZscaled_isSome (c : CacheBundle) (mult : ℝ) (g : VoxelGrid)
    (maxOrder : ℕ) :
    ∀ n l m, ((pipelineZscaled c mult g maxOrder) n l m).isSome
      ↔ validNLM maxOrder n l m := by
  intro n l m
  unfold pipelineZscaled calculate_bbox_moment_2_zm
  by_cases h : validNLM maxOrder n l m
  · simp [h]
  · simp [h]

lemma OneTimeConversion_ok (c : CacheBundle) (mult : ℝ) (g : VoxelGrid)
    (M : ℕ) (h : massOf g ≠ 0) :
    OneTimeConversion c mult g M
      = .ok ((pipelineDescriptor c mult g M).reduceOption) := by
  unfold OneTimeConversion calculate_bbox_moment
  simp only [geoMoment_zero_zero_zero, if_neg h]
  rfl

lemma getElem?_flatMap_const_length {α β : Type} (L : ℕ) :
    ∀ (l : List α) (f : α → List β), (∀ a ∈ l, (f a).length = L) →
      ∀ (i j : ℕ), j < L → ∀ (hi : i < l.length),
        (l.flatMap f)[i * L + j]? = (f (l.get ⟨i, hi⟩))[j]? := by
  intro l
  induction l with
  | nil =>
    intro f _ i j _ hi
    exact absurd hi (by simp)
  | cons a t ih =>
    intro f hf i j hj hi
    cases i with
    | zero =>
      rw [List.flatMap_cons, Nat.zero_mul, Nat.zero_add,
        List.getElem?_append_left (by rw [hf a (by simp)]; exact hj)]
      rfl
    | succ i' =>
      rw [List.flatMap_cons,
        List.getElem?_append_right (by
          calc (f a).length = L := hf a (by simp)
            _ ≤ L + (i' * L + j) := Nat.le_add_right _ _
            _ = (i' + 1) * L + j := by ring)]
      have harith : (i' + 1) * L + j - (f a).length = i' * L + j := by
        rw [hf a (by simp)]
        have : (i' + 1) * L + j = L + (i' * L + j) := by ring
        rw [this, Nat.add_sub_cancel_left]
      rw [harith]
      exact ih f (fun x hx => hf x (by simp [hx])) i' j hj (by simpa using hi)

lemma descriptor_getElem (maxOrder : ℕ) (Z : ℕ → ℕ → ℤ → Option ℂ)
    (n l : ℕ) (hn : n ≤ maxOrder) (hl : l ≤ maxOrder) :
    (get_3dzd_121_descriptor maxOrder Z)[n * (maxOrder + 1) + l]?
      = some (descEntry Z n l) := by
  unfold get_3dzd_121_descriptor
  rw [getElem?_flatMap_const_length (maxOrder + 1) _ _
    (by intro a _; simp) n l (by omega) (by simpa using Nat.lt_succ_of_le hn)]
  simp only [List.get_eq_getElem, List.getElem_range]
  rw [List.getElem?_map, List.getElem?_range (by omega)]
  rfl

lemma massOf_gUnit : massOf gUnit = 1 := by
  simp [massOf, gUnit]

lemma massOf_gUnit_ne_zero : massOf gUnit ≠ 0 := by
  rw [massOf_gUnit]
  norm_num

lemma massOf_gZero : massOf gZero = 0 := by
  simp [massOf, gZero]

/-- C1: for an input voxel grid of nonzero total mass processed with
MaxOrder = 20, the direct invariant descriptor vector returned by the
pipeline (Zernike transform output passed through
`get_3dzd_121_descriptor`, then NaN-filtered) has length exactly 121. -/
theorem c1_descriptor_length_121 (c : CacheBundle) (mult : ℝ)
    (g : VoxelGrid) (h : massOf g ≠ 0) :
    ∃ out : List ℝ, OneTimeConversion c mult g 20 = .ok out
      ∧ out.length = 121 := by
  refine ⟨_, OneTimeConversion_ok c mult g 20 h, ?_⟩
  rw [pipelineDescriptor,
    descriptor_reduceOption_length 20 _ (pipelineZscaled_isSome c mult g 20)]
  exact valid_pair_count_20

/-- C1 witness: the concrete unit-mass grid has nonzero mass and its
descriptor vector at MaxOrder 20 has length 121. -/
theorem c1_descriptor_length_121_witness :
    massOf gUnit ≠ 0 ∧ ∃ out : List ℝ,
      OneTimeConversion cacheA 1 gUnit 20 = .ok out ∧ out.length = 121 :=
  ⟨massOf_gUnit_ne_zero,
   c1_descriptor_length_121 cacheA 1 gUnit massOf_gUnit_ne_zero⟩

/-- C2: for every scaled Zernike moment set and valid `(n,l)` pair, the
direct invariant descriptor entry for `(n,l)` equals the square root of the
sum of the squared magnitudes of the complex moments over the `2l+1` values
of `m`; only populated (non-NaN) entries contribute, and for a valid
`(n,l)` all `2l+1` of them are populated. -/
theorem c2_direct_invariant_entry (maxOrder : ℕ) (c : CacheBundle)
    (T : MomentTensor) (n l : ℕ) (h : validNL maxOrder n l) :
    (get_3dzd_121_descriptor maxOrder
        ((calculate_bbox_moment_2_zm maxOrder c T).1))[n * (maxOrder + 1) + l]?
      = some (some (Real.sqrt (∑ m ∈ Finset.Icc (-(l : ℤ)) (l : ℤ),
          (Complex.abs (zmRaw maxOrder c T n l m)) ^ 2))) := by
  obtain ⟨hn, hl, hpar⟩ := h
  rw [descriptor_getElem maxOrder _ n l hn (hl.trans hn)]
  congr 1
  unfold descEntry
  have hfil : (Finset.Icc (-(l : ℤ)) (l : ℤ)).filter
      (fun m => (((calculate_bbox_moment_2_zm maxOrder c T).1) n l m).isSome)
      = Finset.Icc (-(l : ℤ)) (l : ℤ) := by
    apply Finset.filter_true_of_mem
    intro m hm
    rw [Finset.mem_Icc] at hm
    have hm' : m.natAbs ≤ l := by omega
    simp [calculate_bbox_moment_2_zm, validNLM, validNL, hn, hl, hpar, hm']
  rw [hfil, if_pos ⟨0, zero_mem_Icc_neg l⟩]
  congr 2
  apply Finset.sum_congr rfl
  intro m hm
  rw [Finset.mem_Icc] at hm
  have hm' : m.natAbs ≤ l := by omega
  have hzv : ((calculate_bbox_moment_2_zm maxOrder c T).1) n l m
      = some (zmRaw maxOrder c T n l m) := by
    simp [calculate_bbox_moment_2_zm, validNLM, validNL, hn, hl, hpar, hm']
  rw [hzv]
  rfl

/-- C2 witness: the `(2,0)` entry at MaxOrder 2 on a concrete cache and
tensor. -/
theorem c2_direct_invariant_entry_witness :
    validNL 2 2 0 ∧
    (get_3dzd_121_descriptor 2
        ((calculate_bbox_moment_2_zm 2 cacheA tensor0).1))[2 * (2 + 1) + 0]?
      = some (some (Real.sqrt (∑ m ∈ Finset.Icc (-(0 : ℤ)) (0 : ℤ),
          (Complex.abs (zmRaw 2 cacheA tensor0 2 0 m)) ^ 2))) :=
  ⟨by decide, c2_direct_invariant_entry 2 cacheA tensor0 2 0 (by decide)⟩

/-- C3: the order-1 moment pass returns the total mass as the `(0,0,0)`
moment and the center of mass as the ratios of the three first-order
moments to the mass, and populates no moment of order above 1; the tensor
it returns holds exactly the moments of order at most 1. -/
theorem c3_first_pass_order_one (g : VoxelGrid) (lat : SampleLattice)
    (h : massOf g ≠ 0) :
    calculate_bbox_moment g 1 lat
      = .ok (massOf g,
          (geoMoment g lat 1 0 0 / massOf g, geoMoment g lat 0 1 0 / massOf g,
           geoMoment g lat 0 0 1 / massOf g),
          bboxTensor g lat 1)
    ∧ massOf g = geoMoment g lat 0 0 0
    ∧ (∀ p q r : ℕ, 1 < p + q + r → bboxTensor g lat 1 p q r = none)
    ∧ (∀ p q r : ℕ, p + q + r ≤ 1 →
        bboxTensor g lat 1 p q r = some (geoMoment g lat p q r)) := by
  refine ⟨?_, (geoMoment_zero_zero_zero g lat).symm, ?_, ?_⟩
  · unfold calculate_bbox_moment bboxCenter
    simp only [geoMoment_zero_zero_zero, if_neg h]
  · intro p q r hpqr
    simp only [bboxTensor]
    rw [if_neg (by omega)]
  · intro p q r hpqr
    simp only [bboxTensor]
    rw [if_pos hpqr]

/-- C3 witness: the order-1 pass on the concrete unit-mass grid. -/
theorem c3_first_pass_order_one_witness :
    massOf gUnit ≠ 0 ∧
    (calculate_bbox_moment gUnit 1 (unitLatticeOf gUnit)
      = .ok (massOf gUnit,
          (geoMoment gUnit (unitLatticeOf gUnit) 1 0 0 / massOf gUnit,
           geoMoment gUnit (unitLatticeOf gUnit) 0 1 0 / massOf gUnit,
           geoMoment gUnit (unitLatticeOf gUnit) 0 0 1 / massOf gUnit),
          bboxTensor gUnit (unitLatticeOf gUnit) 1)
    ∧ massOf gUnit = geoMoment gUnit (unitLatticeOf gUnit) 0 0 0
    ∧ (∀ p q r : ℕ, 1 < p + q + r →
        bboxTensor gUnit (unitLatticeOf gUnit) 1 p q r = none)
    ∧ (∀ p q r : ℕ, p + q + r ≤ 1 →
        bboxTensor gUnit (unitLatticeOf gUnit) 1 p q r
          = some (geoMoment gUnit (unitLatticeOf gUnit) p q r))) :=
  ⟨massOf_gUnit_ne_zero,
   c3_first_pass_order_one gUnit (unitLatticeOf gUnit) massOf_gUnit_ne_zero⟩

/-- C4: for the same voxel grid, MaxOrder and cache bundle, the NumPy,
CuPy and TensorFlow pipelines produce the same descriptor vector in the
exact-real model, hence in particular they agree within any relative
tolerance. -/
theorem c4_backend_equivalence (c : CacheBundle) (mult : ℝ) (g : VoxelGrid)
    (M : ℕ) :
    OneTimeConversion_TF c mult g M = OneTimeConversion_CP c mult g M
    ∧ OneTimeConversion_CP c mult g M = OneTimeConversion c mult g M :=
  ⟨rfl, rfl⟩

/-- C5: NaN sentinel entries of the invariant descriptor (modelled as
`none`) are filtered out of the output sequence, never coerced to zero: the
output is exactly the `filterMap` of the unfiltered descriptor, its length
is the number of populated entries, and mapped back through `some` it is a
sublist of the unfiltered descriptor; the pipeline either fails on
degenerate input or returns exactly this filtered vector, which can contain
no NaN. -/
theorem c5_nan_filtering (c : CacheBundle) (mult : ℝ) (g : VoxelGrid)
    (M : ℕ) :
    (pipelineDescriptor c mult g M).reduceOption
        = (pipelineDescriptor c mult g M).filterMap id
    ∧ (pipelineDescriptor c mult g M).reduceOption.length
        = (pipelineDescriptor c mult g M).countP (fun o => o.isSome)
    ∧ ((pipelineDescriptor c mult g M).reduceOption.map some).Sublist
        (pipelineDescriptor c mult g M)
    ∧ (OneTimeConversion c mult g M = .error .zeroMass
        ∨ OneTimeConversion c mult g M
            = .ok ((pipelineDescriptor c mult g M).reduceOption)) := by
  refine ⟨rfl, reduceOption_length_countP _,
    map_some_reduceOption_sublist _, ?_⟩
  by_cases h : massOf g = 0
  · left
    unfold OneTimeConversion calculate_bbox_moment
    simp [geoMoment_zero_zero_zero, h]
  · right
    exact OneTimeConversion_ok c mult g M h

/-- C6: a voxel grid of zero total mass makes `calculate_bbox_moment` fail
with `DegenerateInputError` instead of returning mass, center or tensor,
and the whole pipeline fails the same way without reaching the
center-of-mass division. -/
theorem c6_degenerate_input (c : CacheBundle) (mult : ℝ) (g : VoxelGrid)
    (M : ℕ) (lat : SampleLattice) (h : massOf g = 0) :
    calculate_bbox_moment g M lat = .error DegenerateInputError.zeroMass
    ∧ OneTimeConversion c mult g M = .error DegenerateInputError.zeroMass := by
  constructor
  · unfold calculate_bbox_moment
    rw [geoMoment_zero_zero_zero]
    simp [h]
  · unfold OneTimeConversion calculate_bbox_moment
    simp [geoMoment_zero_zero_zero, h]

/-- C6 witness: the all-zero grid has zero mass and the pipeline fails. -/
theorem c6_degenerate_input_witness :
    massOf gZero = 0 ∧
    (calculate_bbox_moment gZero 20 (unitLatticeOf gZero)
        = .error DegenerateInputError.zeroMass
    ∧ OneTimeConversion cacheA 1 gZero 20
        = .error DegenerateInputError.zeroMass) :=
  ⟨massOf_gZero,
   c6_degenerate_input cacheA 1 gZero 20 (unitLatticeOf gZero) massOf_gZero⟩

/-- C7: the comparator is exactly symmetric in its two input structures,
for both the geoScore and zmScore components: swapping `(A, gA)` with
`(B, gB)` leaves both rescaled scores unchanged. -/
theorem c7_comparator_symmetric (ZMWeight : ℕ → ℝ) (ZMIndex : ℕ → ℕ)
    (Kz : ℕ) (GeoWeight : ℕ → ℝ) (Kg : ℕ) (A gA B gB : ℕ → ℝ) :
    score ZMWeight ZMIndex Kz GeoWeight Kg A gA B gB
      = score ZMWeight ZMIndex Kz GeoWeight Kg B gB A gA := by
  unfold score GeoScoreScaled ZMScoreScaled
  have hg : GeoScore GeoWeight Kg gA gB = GeoScore GeoWeight Kg gB gA := by
    unfold GeoScore
    apply Finset.sum_congr rfl
    intro i _
    rw [abs_sub_comm]
    ring
  have hz : ZMScore ZMWeight ZMIndex Kz A B
      = ZMScore ZMWeight ZMIndex Kz B A := by
    unfold ZMScore
    apply Finset.sum_congr rfl
    intro i _
    rw [abs_sub_comm]
  rw [hg, hz]

lemma unitSample_length (n : ℕ) : (unitSample n).length = n + 1 := by
  rw [unitSample, List.length_map, List.length_range]

lemma unitSample_getElem (n i : ℕ) (h : i ≤ n) :
    (unitSample n)[i]? = some ((i : ℕ) : ℝ) := by
  rw [unitSample, List.getElem?_map, List.getElem?_range (by omega)]
  rfl

lemma unitSample_getLast (n : ℕ) :
    (unitSample n).getLast? = some ((n : ℕ) : ℝ) := by
  rw [unitSample, List.range_succ, List.map_append]
  simp

/-- C9 counterexample: on a grid whose X axis has length 3, the unit sample
lattice the notebooks build is `[0, 1, 2, 3]`: its last node is 3, the axis
length, not the axis length minus one as the claim states. -/
theorem c9_counterexample :
    (unitLatticeOf gExample).xs.getLast? = some (3 : ℝ)
    ∧ (unitLatticeOf gExample).xs.getLast? ≠ some ((3 : ℝ) - 1) := by
  have hx : (unitLatticeOf gExample).xs.getLast? = some ((3 : ℕ) : ℝ) := by
    show ((List.range 4).map _).getLast? = _
    rw [show List.range 4 = [0, 1, 2, 3] from rfl]
    rfl
  constructor
  · rw [hx]
    norm_num
  · rw [hx]
    intro hcon
    rw [Option.some_inj] at hcon
    norm_num at hcon

/-- C9 as amended: along each axis the unit sample lattice is the ordered
sequence of consecutive integer coordinates starting at 0 whose last node
is the axis length itself, so it has axis length + 1 nodes. -/
theorem c9_unit_lattice_amended (g : VoxelGrid) (i j k : ℕ)
    (hi : i ≤ g.nx) (hj : j ≤ g.ny) (hk : k ≤ g.nz) :
    ((unitLatticeOf g).xs.length = g.nx + 1
      ∧ (unitLatticeOf g).xs[i]? = some ((i : ℕ) : ℝ)
      ∧ (unitLatticeOf g).xs.getLast? = some ((g.nx : ℕ) : ℝ))
    ∧ ((unitLatticeOf g).ys.length = g.ny + 1
      ∧ (unitLatticeOf g).ys[j]? = some ((j : ℕ) : ℝ)
      ∧ (unitLatticeOf g).ys.getLast? = some ((g.ny : ℕ) : ℝ))
    ∧ ((unitLatticeOf g).zs.length = g.nz + 1
      ∧ (unitLatticeOf g).zs[k]? = some ((k : ℕ) : ℝ)
      ∧ (unitLatticeOf g).zs.getLast? = some ((g.nz : ℕ) : ℝ)) := by
  exact ⟨⟨unitSample_length g.nx, unitSample_getElem g.nx i hi,
          unitSample_getLast g.nx⟩,
         ⟨unitSample_length g.ny, unitSample_getElem g.ny j hj,
          unitSample_getLast g.ny⟩,
         ⟨unitSample_length g.nz, unitSample_getElem g.nz k hk,
          unitSample_getLast g.nz⟩⟩

/-- C9 amended witness: the unit lattice of the concrete 3 x 4 x 5 grid. -/
theorem c9_unit_lattice_amended_witness :
    (3 ≤ gExample.nx ∧ 4 ≤ gExample.ny ∧ 5 ≤ gExample.nz)
    ∧ (((unitLatticeOf gExample).xs.length = gExample.nx + 1
      ∧ (unitLatticeOf gExample).xs[3]? = some ((3 : ℕ) : ℝ)
      ∧ (unitLatticeOf gExample).xs.getLast? = some ((gExample.nx : ℕ) : ℝ))
    ∧ ((unitLatticeOf gExample).ys.length = gExample.ny + 1
      ∧ (unitLatticeOf gExample).ys[4]? = some ((4 : ℕ) : ℝ)
      ∧ (unitLatticeOf gExample).ys.getLast? = some ((gExample.ny : ℕ) : ℝ))
    ∧ ((unitLatticeOf gExample).zs.length = gExample.nz + 1
      ∧ (unitLatticeOf gExample).zs[5]? = some ((5 : ℕ) : ℝ)
      ∧ (unitLatticeOf gExample).zs.getLast? = some ((gExample.nz : ℕ) : ℝ))) :=
  ⟨⟨by decide, by decide, by decide⟩,
   c9_unit_lattice_amended gExample 3 4 5 (by decide) (by decide) (by decide)⟩

/-- C10: the pipeline output does not depend on the `CLMCache` table: two
cache bundles that agree on the four tables the pipeline passes on
(`GCache_pqr_linear`, `GCache_complex`, `GCache_complex_index`,
`CLMCache3D`) but may differ arbitrarily in `CLMCache` give identical
descriptor vectors. -/
theorem c10_clmcache_independence (c1 c2 : CacheBundle)
    (h1 : c1.GCache_pqr_linear = c2.GCache_pqr_linear)
    (h2 : c1.GCache_complex = c2.GCache_complex)
    (h3 : c1.GCache_complex_index = c2.GCache_complex_index)
    (h4 : c1.CLMCache3D = c2.CLMCache3D)
    (mult : ℝ) (g : VoxelGrid) (M : ℕ) :
    OneTimeConversion c1 mult g M = OneTimeConversion c2 mult g M := by
  obtain ⟨a1, b1, d1, e1, f1⟩ := c1
  obtain ⟨a2, b2, d2, e2, f2⟩ := c2
  have e1' : a1 = a2 := h1
  have e2' : b1 = b2 := h2
  have e3' : d1 = d2 := h3
  have e4' : e1 = e2 := h4
  subst e1' e2' e3' e4'
  rfl

/-- C10 witness: two concrete bundles differing only in `CLMCache` give
the same pipeline result. -/
theorem c10_clmcache_independence_witness :
    OneTimeConversion cacheA 1 gExample 2
      = OneTimeConversion cacheB 1 gExample 2 :=
  c10_clmcache_independence cacheA cacheB rfl rfl rfl rfl 1 gExample 2

end
